import Mathlib

/-
Shallow embedding of the kaggle-agent-k8s job reconciliation engine.

Sources embedded:
  - kaggle-api-gateway/services/job_service.py  (JobService)
  - kaggle-api-gateway/main.py                  (cancel_job endpoint)
  - kaggle-job-orchestrator/watchers/job_watcher.py  (JobWatcher._sync_job_status)
  - kaggle-job-orchestrator/watchers/pod_watcher.py  (PodWatcher handlers)
  - kaggle-job-orchestrator/handlers/job_creator.py  (JobCreator)
  - kaggle-job-orchestrator/handlers/job_cleaner.py  (JobCleaner.cleanup)

Modelling conventions: datetime values are integers (seconds); the Python
value datetime.utcnow() becomes an explicit argument now; Python values that
may be None become Option; Python truthiness of an optional count n
(that is, n and n > 0) is the predicate pos_count.
-/

/-- Job status enumeration, from api/models/schemas.py JobStatus. -/
inductive JobStatus
  | pending
  | queued
  | running
  | success
  | failed
  | timeout
deriving DecidableEq, Repr

/-- The slice of the job_metadata mapping the embedded code touches: the
progress text and the priority key written at insert. -/
structure JobMeta where
  progress : Option String
  priority : Int
deriving DecidableEq, Repr

/-- One row of the jobs table, from api/models/database.py, restricted to the
columns the embedded operations read or write. -/
structure Job where
  job_id : String
  k8s_job_name : String
  k8s_pod_name : Option String
  status : JobStatus
  created_at : Int
  queued_at : Option Int
  started_at : Option Int
  completed_at : Option Int
  submission_path : Option String
  error_message : Option String
  job_metadata : JobMeta
deriving DecidableEq, Repr

/-- A status is terminal when it is SUCCESS, FAILED or TIMEOUT; mirrors the
membership test status in [SUCCESS, FAILED, TIMEOUT] in update_job_status. -/
def JobStatus.isTerminal : JobStatus → Bool
  | .success => true
  | .failed => true
  | .timeout => true
  | _ => false

/-- Field-level body of JobService.update_job_status once the job row has been
found: sets status, conditionally stamps queued_at and started_at (only when
not already set), unconditionally stamps completed_at on a terminal status,
and applies the optional pod name, error message and progress-metadata merge. -/
def update_job_status_fields (job : Job) (status : JobStatus) (now : Int)
    (k8s_pod_name : Option String) (error_message : Option String)
    (progress : Option String) : Job :=
  { job with
    status := status
    queued_at :=
      if status = JobStatus.queued ∧ job.queued_at = none then some now
      else job.queued_at
    started_at :=
      if status = JobStatus.running ∧ job.started_at = none then some now
      else job.started_at
    completed_at :=
      if status.isTerminal then some now else job.completed_at
    k8s_pod_name :=
      match k8s_pod_name with
      | some p => some p
      | none => job.k8s_pod_name
    error_message :=
      match error_message with
      | some e => some e
      | none => job.error_message
    job_metadata :=
      match progress with
      | some p => { job.job_metadata with progress := some p }
      | none => job.job_metadata }

/-- JobService.get_job: first row whose job_id matches. -/
def get_job (db : List Job) (job_id : String) : Option Job :=
  db.find? (fun j => j.job_id = job_id)

/-- JobService.update_job_status at the table level: looks the job up by id,
returns None and leaves the table unchanged when absent, otherwise rewrites
that row with update_job_status_fields. -/
def update_job_status (db : List Job) (job_id : String) (status : JobStatus)
    (now : Int) (k8s_pod_name : Option String) (error_message : Option String)
    (progress : Option String) : Option Job × List Job :=
  match get_job db job_id with
  | none => (none, db)
  | some job =>
      let updated := update_job_status_fields job status now k8s_pod_name
        error_message progress
      (some updated,
        db.map (fun j => if j.job_id = job_id then updated else j))

/-- Python truthiness of an optional count: count and count > 0. -/
def pos_count : Option Nat → Bool
  | some n => decide (0 < n)
  | none => false

/-- Observed status counts of one K8s Job object (k8s_job.status). -/
structure K8sJobStatus where
  succeeded : Option Nat
  failed : Option Nat
  active : Option Nat
deriving DecidableEq, Repr

/-- JobWatcher._sync_job_status: derive a status transition from the observed
counts with an if/elif chain (succeeded, then failed, then active), guard each
branch by the current stored status, and apply update_job_status only when a
new status was chosen. -/
def sync_job_status (db_job : Job) (job_status : K8sJobStatus) (now : Int) :
    Job :=
  if pos_count job_status.succeeded then
    if db_job.status ≠ JobStatus.success then
      update_job_status_fields db_job JobStatus.success now none none
        (some "Job completed successfully")
    else db_job
  else if pos_count job_status.failed then
    if db_job.status ≠ JobStatus.failed ∧ db_job.status ≠ JobStatus.timeout then
      update_job_status_fields db_job JobStatus.failed now none
        (some ("K8s Job failed after " ++
          toString (job_status.failed.getD 0) ++ " attempts"))
        (some "Job failed")
    else db_job
  else if pos_count job_status.active then
    if db_job.status ≠ JobStatus.running then
      update_job_status_fields db_job JobStatus.running now none none
        (some "Pod is running")
    else db_job
  else db_job

/-- Checks whether the first list is a prefix of the second, as a Bool. -/
def prefixOfChars : List Char → List Char → Bool
  | [], _ => true
  | _ :: _, [] => false
  | a :: as, b :: bs => a = b && prefixOfChars as bs

/-- Checks whether the first list occurs contiguously inside the second. -/
def subOfChars (needle : List Char) : List Char → Bool
  | [] => prefixOfChars needle []
  | c :: cs => prefixOfChars needle (c :: cs) || subOfChars needle cs

/-- The Python membership test needle in haystack on strings. -/
def containsStr (haystack needle : String) : Bool :=
  subOfChars needle.data haystack.data

/-- The terminated state of the first container status of a pod, when present
(container_statuses[0].state.terminated). -/
structure PodTerminated where
  exit_code : Int
  reason : String
deriving DecidableEq, Repr

/-- The slice of one pod object the pod watcher reads. -/
structure PodInfo where
  name : String
  terminated : Option PodTerminated
deriving DecidableEq, Repr

/-- PodWatcher._handle_failed_pod: a job already FAILED or TIMEOUT is left
alone; otherwise build a diagnostic from the first terminated container,
classify DeadlineExceeded as TIMEOUT, and write the new status. -/
def handle_failed_pod (db_job : Job) (pod : PodInfo) (now : Int) : Job :=
  if db_job.status = JobStatus.failed ∨ db_job.status = JobStatus.timeout then
    db_job
  else
    let error_message :=
      match pod.terminated with
      | some t => "Exit code " ++ toString t.exit_code ++ ": " ++ t.reason
      | none => "Pod failed"
    let status :=
      if containsStr error_message "DeadlineExceeded" then JobStatus.timeout
      else JobStatus.failed
    update_job_status_fields db_job status now none (some error_message) none

/-- PodWatcher._find_submission_file: the artifact store is the set of job ids
that have a submission.csv under the shared storage path; returns the full
path when present. -/
def find_submission_file (store : List String) (job_id : String) :
    Option String :=
  if job_id ∈ store then
    some ("/shared/submissions/" ++ job_id ++ "/submission.csv")
  else none

/-- PodWatcher._handle_succeeded_pod: a job already SUCCESS with a bound
submission path is left alone; otherwise look the artifact up, and either
record SUCCESS and bind the path, or record FAILED with a diagnostic that the
submission file was not generated. -/
def handle_succeeded_pod (store : List String) (db_job : Job) (now : Int) :
    Job :=
  if db_job.status = JobStatus.success ∧ db_job.submission_path ≠ none then
    db_job
  else
    match find_submission_file store db_job.job_id with
    | some p =>
        let updated := update_job_status_fields db_job JobStatus.success now
          none none (some "Completed successfully")
        { updated with submission_path := some p }
    | none =>
        update_job_status_fields db_job JobStatus.failed now none
          (some "No submission.csv generated") none

/-- PodWatcher._handle_running_pod: transition to RUNNING unless already
RUNNING. -/
def handle_running_pod (db_job : Job) (now : Int) : Job :=
  if db_job.status ≠ JobStatus.running then
    update_job_status_fields db_job JobStatus.running now none none
      (some "Agent is executing")
  else db_job

/-- JobCreator.create_job with the platform modelled as the list of existing
K8s Job names: probe by name first and report success without resubmitting
when found, otherwise submit the new unit. Returns the success flag and the
resulting platform state. -/
def create_job (platform : List String) (k8s_job_name : String) :
    Bool × List String :=
  if k8s_job_name ∈ platform then (true, platform)
  else (true, k8s_job_name :: platform)

/-- JobCleaner.cleanup, per unit: a unit with no completion_time is skipped;
a unit whose completion_time is after the cutoff now - retention_hours is
skipped; every other unit is deleted. Times are in seconds. -/
def cleanup_deletes (completion_time : Option Int) (now : Int)
    (retention_hours : Int) : Bool :=
  let cutoff_time := now - retention_hours * 3600
  match completion_time with
  | none => false
  | some t => !(decide (t > cutoff_time))

/-- Outcome of the delete_namespaced_job call issued by the cancel endpoint:
success, or an ApiException with the given HTTP status code. -/
inductive DeleteOutcome
  | deleted
  | apiError (code : Nat)
deriving DecidableEq, Repr

/-- Response of the cancel endpoint: the success body, or an HTTPException
with a status code and detail prefix. -/
inductive CancelResponse
  | ok (job_id : String)
  | httpError (code : Nat) (detail : String)
deriving DecidableEq, Repr

/-- The cancel_job endpoint from kaggle-api-gateway/main.py: 404 when the job
id is unknown; 400 when the status is not PENDING, QUEUED or RUNNING; then
the K8s delete is attempted, and an ApiException with a code other than 404
raises a 500 before any ledger write; otherwise the FAILED status with the
cancellation diagnostic is written. -/
def cancel_job_endpoint (db : List Job) (job_id : String)
    (delete_outcome : DeleteOutcome) (now : Int) :
    CancelResponse × List Job :=
  match get_job db job_id with
  | none => (CancelResponse.httpError 404 ("Job " ++ job_id ++ " not found"), db)
  | some job =>
      if job.status = JobStatus.pending ∨ job.status = JobStatus.queued ∨
          job.status = JobStatus.running then
        match delete_outcome with
        | DeleteOutcome.apiError code =>
            if code ≠ 404 then
              (CancelResponse.httpError 500 "Error deleting K8s Job", db)
            else
              (CancelResponse.ok job_id,
                (update_job_status db job_id JobStatus.failed now none
                  (some "Job cancelled by user") (some "Cancelled")).2)
        | DeleteOutcome.deleted =>
            (CancelResponse.ok job_id,
              (update_job_status db job_id JobStatus.failed now none
                (some "Job cancelled by user") (some "Cancelled")).2)
      else
        (CancelResponse.httpError 400 "Job cannot be cancelled", db)

/-- Ordering used by JobService.get_pending_jobs: priority descending first,
then created_at ascending. -/
def pending_before (a b : Job) : Bool :=
  decide (b.job_metadata.priority < a.job_metadata.priority) ||
    (a.job_metadata.priority = b.job_metadata.priority &&
      decide (a.created_at ≤ b.created_at))

/-- Stable insertion into a list sorted by pending_before. -/
def pending_insert (x : Job) : List Job → List Job
  | [] => [x]
  | y :: ys =>
      if pending_before x y then x :: y :: ys else y :: pending_insert x ys

/-- Stable insertion sort by pending_before; models the SQL ORDER BY
priority desc, created_at asc. -/
def pending_sort : List Job → List Job
  | [] => []
  | x :: xs => pending_insert x (pending_sort xs)

/-- JobService.get_pending_jobs: rows with status PENDING, ordered by
priority descending then created_at ascending, limited. -/
def get_pending_jobs (db : List Job) (limit : Nat) : List Job :=
  (pending_sort (db.filter (fun j => j.status = JobStatus.pending))).take limit

/-- An ASCII digit character, by its code point. -/
def isDigitChar (c : Char) : Bool :=
  48 ≤ c.toNat && c.toNat ≤ 57

/-- Numeric value of a digit list read in base ten. -/
def digitsVal (l : List Char) : Nat :=
  l.foldl (fun a c => 10 * a + (c.toNat - 48)) 0

/-- Python int() on a string, restricted to plain digit strings: any other
shape raises, modelled as none. -/
def py_int? (l : List Char) : Option Nat :=
  if l ≠ [] ∧ l.all isDigitChar then some (digitsVal l) else none

/-- Python int(float(s)) for a nonnegative decimal literal: the integer part
of the literal (truncation toward zero); none when float(s) raises. -/
def py_float_trunc? (s : String) : Option Nat :=
  match s.data.splitOn '.' with
  | [intPart] => py_int? intPart
  | [intPart, fracPart] =>
      if fracPart.all isDigitChar ∧ (intPart ≠ [] ∨ fracPart ≠ []) then
        if intPart = [] then some 0 else py_int? intPart
      else none
  | _ => none

/-- Spec-side reading of a request string as an exact decimal number, used to
state the doubling property the spec describes; defined from the words of the
spec, not from the source. -/
def requested_value? (s : String) : Option ℚ :=
  match s.data.splitOn '.' with
  | [intPart] => (py_int? intPart).map (fun n => (n : ℚ))
  | [intPart, fracPart] =>
      if fracPart.all isDigitChar ∧ (intPart ≠ [] ∨ fracPart ≠ []) then
        match (if intPart = [] then some 0 else py_int? intPart) with
        | some w =>
            some ((w : ℚ) + (digitsVal fracPart : ℚ) / (10 ^ fracPart.length))
        | none => none
      else none
  | _ => none

/-- The cpu limit computed by JobCreator._build_job_manifest:
str(int(float(cpu_request)) times 2), with the bare except fallback to the
hard-coded default when the parse raises. -/
def cpu_limit (cpu_request : String) : String :=
  match py_float_trunc? cpu_request with
  | some n => toString (n * 2)
  | none => "2"

/-- Removes every occurrence of the two-character sequence a b from a
character list, left to right; models str.replace with a two-character
pattern and empty replacement. -/
def removePair (a b : Char) : List Char → List Char
  | [] => []
  | [c] => [c]
  | c :: d :: cs =>
      if c = a ∧ d = b then removePair a b cs
      else c :: removePair a b (d :: cs)

/-- The memory limit computed by JobCreator._build_job_manifest: strip Gi and
Mi, parse with int(), double and re-attach the suffix (Gi when the request
mentions Gi, else Mi), with the bare except fallback to the default. -/
def memory_limit (memory_request : String) : String :=
  let stripped := removePair 'M' 'i' (removePair 'G' 'i' memory_request.data)
  match py_int? stripped with
  | some v =>
      if containsStr memory_request "Gi" then toString (v * 2) ++ "Gi"
      else toString (v * 2) ++ "Mi"
  | none => "4Gi"

/-- The limit computation of _build_job_manifest together with the log
records it emits; the source wraps both parses in bare except blocks that
assign the fallback and call no logger, so the emitted log list is empty on
every path. -/
def build_limits (cpu_request memory_request : String) :
    (String × String) × List String :=
  ((cpu_limit cpu_request, memory_limit memory_request), [])

/-- A fresh job row as JobService.create_job inserts it, with the given id,
status, creation time and priority. -/
def mkJob (id : String) (st : JobStatus) (created : Int) (prio : Int) : Job :=
  { job_id := id
    k8s_job_name := "kaggle-comp-" ++ id
    k8s_pod_name := none
    status := st
    created_at := created
    queued_at := none
    started_at := none
    completed_at := none
    submission_path := none
    error_message := none
    job_metadata :=
      { progress := some "Job created, awaiting controller", priority := prio } }

theorem update_fields_job_id (job : Job) (st : JobStatus) (now : Int)
    (pn em pr : Option String) :
    (update_job_status_fields job st now pn em pr).job_id = job.job_id := rfl

theorem update_fields_submission_path (job : Job) (st : JobStatus) (now : Int)
    (pn em pr : Option String) :
    (update_job_status_fields job st now pn em pr).submission_path =
      job.submission_path := rfl

theorem update_fields_status (job : Job) (st : JobStatus) (now : Int)
    (pn em pr : Option String) :
    (update_job_status_fields job st now pn em pr).status = st := rfl

/-- Claim C5: in the execution-unit synchronizer, a unit that simultaneously
reports succeeded=1 and failed=2 yields Job status SUCCESS, never FAILED,
whatever the stored status and the active count are: the succeeded branch of
the if/elif chain shadows the failed branch. -/
theorem c5_success_precedence (job : Job) (active : Option Nat) (now : Int) :
    (sync_job_status job (K8sJobStatus.mk (some 1) (some 2) active) now).status =
      JobStatus.success := by
  unfold sync_job_status
  by_cases h : job.status = JobStatus.success
  · simp [pos_count, h]
  · simp [pos_count, h, update_fields_status]

/-- Claim C10: JobService.update_job_status invoked with a job id that matches
no row returns None and leaves the table unchanged. -/
theorem c10_update_unknown_id (db : List Job) (job_id : String)
    (status : JobStatus) (now : Int) (pn em pr : Option String)
    (h : get_job db job_id = none) :
    update_job_status db job_id status now pn em pr = (none, db) := by
  unfold update_job_status
  rw [h]

theorem c10_update_unknown_id_witness :
    update_job_status [] "missing-id" JobStatus.failed 3 none none none =
      (none, []) :=
  c10_update_unknown_id [] "missing-id" JobStatus.failed 3 none none none rfl

/-- Claim C6 counterexample: with now = 100000 and a 24 hour retention
window, a unit whose completion timestamp equals exactly now minus the
window is deleted by the cleaner, contradicting the claim that it is not. -/
theorem c6_counterexample :
    cleanup_deletes (some (100000 - 24 * 3600)) 100000 24 = true := by decide

/-- Claim C6 (amended): a unit completed exactly at now minus the retention
window is deleted, as is one completed a second earlier; one completed a
second later is kept; and a unit with no completion timestamp is never
deleted, whatever its age. The skip test is strictly completion > cutoff, so
the boundary itself is deleted. -/
theorem c6_retention_boundary_amended (now retention_hours : Int) :
    cleanup_deletes (some (now - retention_hours * 3600)) now retention_hours =
        true ∧
    cleanup_deletes (some (now - retention_hours * 3600 - 1)) now
        retention_hours = true ∧
    cleanup_deletes (some (now - retention_hours * 3600 + 1)) now
        retention_hours = false ∧
    cleanup_deletes none now retention_hours = false := by
  refine ⟨?_, ?_, ?_, rfl⟩
  · simp [cleanup_deletes]
  · simp [cleanup_deletes]
  · simp [cleanup_deletes]

/-- Claim C4 counterexample: a job whose completed_at is already 5 and whose
status is SUCCESS, run through update_job_status_fields again with the same
terminal status at time 9, gets completed_at overwritten to 9: the
completed_at stamp has no already-set guard, unlike queued_at and
started_at. -/
theorem c4_counterexample :
    (update_job_status_fields
        { mkJob "j4" JobStatus.success 0 0 with completed_at := some 5 }
        JobStatus.success 9 none none none).completed_at = some 9 ∧
    ({ mkJob "j4" JobStatus.success 0 0 with
        completed_at := some 5 } : Job).completed_at = some 5 := by
  constructor <;> rfl

/-- Claim C4 (amended): queuedAt and startedAt are write-once, preserved by
every update once populated; completedAt is not: every update applying a
terminal status stamps completedAt with the current time, overwriting any
previously set value, so re-applying a terminal status moves completedAt. -/
theorem c4_write_once_amended (job : Job) (st : JobStatus) (now : Int)
    (pn em pr : Option String) :
    (job.queued_at ≠ none →
      (update_job_status_fields job st now pn em pr).queued_at =
        job.queued_at) ∧
    (job.started_at ≠ none →
      (update_job_status_fields job st now pn em pr).started_at =
        job.started_at) ∧
    (st.isTerminal = true →
      (update_job_status_fields job st now pn em pr).completed_at =
        some now) := by
  refine ⟨fun hq => ?_, fun hs => ?_, fun ht => ?_⟩
  · simp [update_job_status_fields, hq]
  · simp [update_job_status_fields, hs]
  · simp [update_job_status_fields, ht]

theorem c4_write_once_amended_witness :
    (update_job_status_fields
        { mkJob "w4" JobStatus.running 0 0 with
            queued_at := some 1, started_at := some 2 }
        JobStatus.success 9 none none none).queued_at = some 1 ∧
    (update_job_status_fields
        { mkJob "w4" JobStatus.running 0 0 with
            queued_at := some 1, started_at := some 2 }
        JobStatus.success 9 none none none).started_at = some 2 ∧
    (update_job_status_fields
        { mkJob "w4" JobStatus.running 0 0 with
            queued_at := some 1, started_at := some 2 }
        JobStatus.success 9 none none none).completed_at = some 9 :=
  have h := c4_write_once_amended
    { mkJob "w4" JobStatus.running 0 0 with
        queued_at := some 1, started_at := some 2 }
    JobStatus.success 9 none none none
  ⟨h.1 (by decide), h.2.1 (by decide), h.2.2 rfl⟩

/-- Claim C1 counterexample: a Job in SUCCESS with completed_at 5, observed
on a later synchronizer pass whose unit reports failed=1 and no succeeded
count, is moved to FAILED and its completed_at is overwritten to the new
time: the failed branch guard only excludes FAILED and TIMEOUT, not
SUCCESS. -/
theorem c1_counterexample :
    (sync_job_status
        { mkJob "j1" JobStatus.success 0 0 with completed_at := some 5 }
        (K8sJobStatus.mk none (some 1) none) 9).status = JobStatus.failed ∧
    (sync_job_status
        { mkJob "j1" JobStatus.success 0 0 with completed_at := some 5 }
        (K8sJobStatus.mk none (some 1) none) 9).completed_at = some 9 := by
  constructor <;> rfl

/-- Claim C1 (amended): terminal absorption holds only against a report of
the same kind. A SUCCESS Job is unchanged by a pass whose unit reports a
succeeded count, and a FAILED or TIMEOUT Job is unchanged by a pass
reporting a failed count (job sync) and by the failed-pod handler (pod
sync); but a SUCCESS Job observed with a failed count and no succeeded
count is re-transitioned to FAILED and its completedAt is overwritten. -/
theorem c1_terminal_absorption_amended :
    (∀ (job : Job) (st : K8sJobStatus) (now : Int),
      job.status = JobStatus.success → pos_count st.succeeded = true →
      sync_job_status job st now = job) ∧
    (∀ (job : Job) (st : K8sJobStatus) (now : Int),
      (job.status = JobStatus.failed ∨ job.status = JobStatus.timeout) →
      pos_count st.succeeded = false → pos_count st.failed = true →
      sync_job_status job st now = job) ∧
    (∀ (job : Job) (pod : PodInfo) (now : Int),
      (job.status = JobStatus.failed ∨ job.status = JobStatus.timeout) →
      handle_failed_pod job pod now = job) ∧
    (∀ (job : Job) (st : K8sJobStatus) (now : Int),
      job.status = JobStatus.success → pos_count st.succeeded = false →
      pos_count st.failed = true →
      (sync_job_status job st now).status = JobStatus.failed ∧
      (sync_job_status job st now).completed_at = some now) := by
  refine ⟨?_, ?_, ?_, ?_⟩
  · intro job st now hs hp
    simp [sync_job_status, hp, hs]
  · intro job st now hs hp hf
    rcases hs with hs | hs <;> simp [sync_job_status, hp, hf, hs]
  · intro job pod now hs
    unfold handle_failed_pod
    rcases hs with hs | hs <;> simp [hs]
  · intro job st now hs hp hf
    have hne : job.status ≠ JobStatus.failed ∧ job.status ≠ JobStatus.timeout := by
      rw [hs]; exact ⟨by simp, by simp⟩
    constructor <;>
      simp [sync_job_status, hp, hf, hne, hs, update_job_status_fields,
        JobStatus.isTerminal]

theorem c1_terminal_absorption_amended_witness :
    sync_job_status (mkJob "w1" JobStatus.success 0 0)
        (K8sJobStatus.mk (some 1) (some 1) none) 3 =
      mkJob "w1" JobStatus.success 0 0 ∧
    sync_job_status (mkJob "w1" JobStatus.failed 0 0)
        (K8sJobStatus.mk none (some 1) none) 3 =
      mkJob "w1" JobStatus.failed 0 0 ∧
    handle_failed_pod (mkJob "w1" JobStatus.timeout 0 0)
        (PodInfo.mk "pod-w1" none) 3 =
      mkJob "w1" JobStatus.timeout 0 0 ∧
    (sync_job_status (mkJob "w1" JobStatus.success 0 0)
        (K8sJobStatus.mk none (some 1) none) 9).status = JobStatus.failed :=
  ⟨c1_terminal_absorption_amended.1 _ _ _ rfl rfl,
   c1_terminal_absorption_amended.2.1 _ _ _ (Or.inl rfl) rfl rfl,
   c1_terminal_absorption_amended.2.2.1 _ _ _ (Or.inr rfl),
   (c1_terminal_absorption_amended.2.2.2 (mkJob "w1" JobStatus.success 0 0)
      (K8sJobStatus.mk none (some 1) none) 9 rfl rfl rfl).1⟩

/-- Claim C2 counterexample: the job-level synchronizer path sets SUCCESS
from a succeeded count alone. A RUNNING job whose unit reports succeeded=1
becomes SUCCESS with submission_path still unset, while the artifact store
holds no artifact for it at all: a synchronizer path reaches SUCCESS without
verifying the artifact. -/
theorem c2_counterexample :
    (sync_job_status (mkJob "j2" JobStatus.running 0 0)
        (K8sJobStatus.mk (some 1) none none) 7).status = JobStatus.success ∧
    (sync_job_status (mkJob "j2" JobStatus.running 0 0)
        (K8sJobStatus.mk (some 1) none none) 7).submission_path = none ∧
    find_submission_file [] (mkJob "j2" JobStatus.running 0 0).job_id =
      none := by
  refine ⟨rfl, rfl, ?_⟩ ; decide

/-- Claim C2 (amended): only the pod-level success handler binds
artifactPath, and it does verify the artifact first: with no artifact at the
expected path it records FAILED with the missing-artifact diagnostic and
leaves artifactPath unchanged, and with an artifact present it records
SUCCESS and binds the found path. The job-level synchronizer, however, sets
SUCCESS from a succeeded count without consulting the artifact store and
never touches artifactPath, so a SUCCESS status can exist with no bound
artifactPath. -/
theorem c2_artifact_amended :
    (∀ (store : List String) (job : Job) (now : Int),
      ¬(job.status = JobStatus.success ∧ job.submission_path ≠ none) →
      find_submission_file store job.job_id = none →
      (handle_succeeded_pod store job now).status = JobStatus.failed ∧
      (handle_succeeded_pod store job now).error_message =
        some "No submission.csv generated" ∧
      (handle_succeeded_pod store job now).submission_path =
        job.submission_path) ∧
    (∀ (store : List String) (job : Job) (now : Int) (p : String),
      ¬(job.status = JobStatus.success ∧ job.submission_path ≠ none) →
      find_submission_file store job.job_id = some p →
      (handle_succeeded_pod store job now).status = JobStatus.success ∧
      (handle_succeeded_pod store job now).submission_path = some p) ∧
    (∀ (job : Job) (st : K8sJobStatus) (now : Int),
      (sync_job_status job st now).submission_path = job.submission_path) := by
  refine ⟨?_, ?_, ?_⟩
  · intro store job now hguard hnone
    unfold handle_succeeded_pod
    rw [if_neg hguard, hnone]
    exact ⟨rfl, rfl, rfl⟩
  · intro store job now p hguard hsome
    unfold handle_succeeded_pod
    rw [if_neg hguard, hsome]
    exact ⟨rfl, rfl⟩
  · intro job st now
    unfold sync_job_status
    repeat' split
    all_goals rfl

theorem c2_artifact_amended_witness :
    (handle_succeeded_pod [] (mkJob "w2" JobStatus.running 0 0) 7).status =
      JobStatus.failed ∧
    (handle_succeeded_pod [] (mkJob "w2" JobStatus.running 0 0) 7).error_message =
      some "No submission.csv generated" ∧
    (handle_succeeded_pod ["w2"] (mkJob "w2" JobStatus.running 0 0) 7).status =
      JobStatus.success ∧
    (handle_succeeded_pod ["w2"] (mkJob "w2" JobStatus.running 0 0) 7).submission_path =
      some "/shared/submissions/w2/submission.csv" :=
  have h1 := c2_artifact_amended.1 [] (mkJob "w2" JobStatus.running 0 0) 7
    (by decide) (by decide)
  have h2 := c2_artifact_amended.2.1 ["w2"] (mkJob "w2" JobStatus.running 0 0) 7
    "/shared/submissions/w2/submission.csv" (by decide) (by decide)
  ⟨h1.1, h1.2.1, h2.1, h2.2⟩

theorem get_job_some_id {db : List Job} {id : String} {job : Job}
    (h : get_job db id = some job) : job.job_id = id := by
  unfold get_job at h
  have := List.find?_some h
  simpa using this

theorem get_job_map_update {db : List Job} {id : String} {job u : Job}
    (hfind : get_job db id = some job) (hid : u.job_id = id) :
    get_job (db.map (fun j => if j.job_id = id then u else j)) id = some u := by
  induction db with
  | nil => simp [get_job] at hfind
  | cons x xs ih =>
      unfold get_job at hfind ⊢
      by_cases hx : x.job_id = id
      · simp [List.find?_cons, hx, hid]
      · rw [List.find?_cons_of_neg _ (by simpa using hx)] at hfind
        simp only [List.map_cons, if_neg hx]
        rw [List.find?_cons_of_neg _ (by simpa using hx)]
        exact ih hfind

/-- Claim C3 counterexample: cancelling a RUNNING job while the platform
delete call fails with a non-404 ApiException returns the 500 error and
leaves the table untouched: the job is still RUNNING, not FAILED, because
the HTTPException is raised before the status write. -/
theorem c3_counterexample :
    cancel_job_endpoint [mkJob "j3" JobStatus.running 0 0] "j3"
        (DeleteOutcome.apiError 500) 9 =
      (CancelResponse.httpError 500 "Error deleting K8s Job",
        [mkJob "j3" JobStatus.running 0 0]) ∧
    (get_job [mkJob "j3" JobStatus.running 0 0] "j3").map Job.status =
      some JobStatus.running := by
  constructor <;> decide

/-- Claim C3 (amended): for a cancellation of a non-terminal Job, a delete
failure other than not-found is surfaced as a 500 error and the Ledger write
is skipped: the Job keeps its previous status. The transition to FAILED with
the cancellation diagnostic happens only when the delete succeeds or fails
with not-found. -/
theorem c3_cancel_amended (db : List Job) (id : String) (job : Job) (now : Int)
    (hfind : get_job db id = some job)
    (hst : job.status = JobStatus.pending ∨ job.status = JobStatus.queued ∨
      job.status = JobStatus.running) :
    (∀ code : Nat, code ≠ 404 →
      cancel_job_endpoint db id (DeleteOutcome.apiError code) now =
        (CancelResponse.httpError 500 "Error deleting K8s Job", db)) ∧
    (∀ outcome : DeleteOutcome,
      (outcome = DeleteOutcome.deleted ∨
        outcome = DeleteOutcome.apiError 404) →
      (cancel_job_endpoint db id outcome now).1 = CancelResponse.ok id ∧
      get_job (cancel_job_endpoint db id outcome now).2 id =
        some (update_job_status_fields job JobStatus.failed now none
          (some "Job cancelled by user") (some "Cancelled"))) := by
  have hup : get_job
      (update_job_status db id JobStatus.failed now none
        (some "Job cancelled by user") (some "Cancelled")).2 id =
      some (update_job_status_fields job JobStatus.failed now none
        (some "Job cancelled by user") (some "Cancelled")) := by
    unfold update_job_status
    rw [hfind]
    exact get_job_map_update hfind
      ((update_fields_job_id job JobStatus.failed now none
        (some "Job cancelled by user") (some "Cancelled")).trans
        (get_job_some_id hfind))
  constructor
  · intro code hcode
    simp only [cancel_job_endpoint, hfind, if_pos hst, if_pos hcode]
  · intro outcome houtcome
    rcases houtcome with h | h <;> subst h <;>
      constructor <;>
        simp only [cancel_job_endpoint, hfind, if_pos hst] <;>
          first
            | rfl
            | exact hup

theorem c3_cancel_amended_witness :
    cancel_job_endpoint [mkJob "w3" JobStatus.running 0 0] "w3"
        (DeleteOutcome.apiError 500) 9 =
      (CancelResponse.httpError 500 "Error deleting K8s Job",
        [mkJob "w3" JobStatus.running 0 0]) ∧
    (cancel_job_endpoint [mkJob "w3" JobStatus.running 0 0] "w3"
        DeleteOutcome.deleted 9).1 = CancelResponse.ok "w3" ∧
    get_job (cancel_job_endpoint [mkJob "w3" JobStatus.running 0 0] "w3"
        DeleteOutcome.deleted 9).2 "w3" =
      some (update_job_status_fields (mkJob "w3" JobStatus.running 0 0)
        JobStatus.failed 9 none (some "Job cancelled by user")
        (some "Cancelled")) :=
  have h := c3_cancel_amended [mkJob "w3" JobStatus.running 0 0] "w3"
    (mkJob "w3" JobStatus.running 0 0) 9 (by decide)
    (Or.inr (Or.inr rfl))
  have h2 := h.2 DeleteOutcome.deleted (Or.inl rfl)
  ⟨h.1 500 (by decide), h2.1, h2.2⟩

/-- Claim C7: creation is idempotent. Starting from a platform without the
unit, invoking the Creator twice with the same executionUnitName reports
success both times, the platform ends with exactly one unit of that name,
and the second call leaves the platform unchanged; moreover whenever the
unit already exists the Creator reports success without resubmitting. -/
theorem c7_idempotent_creation (platform : List String) (name : String)
    (h : name ∉ platform) :
    ((create_job platform name).1 = true ∧
      (create_job (create_job platform name).2 name).1 = true ∧
      ((create_job (create_job platform name).2 name).2).count name = 1 ∧
      (create_job (create_job platform name).2 name).2 =
        (create_job platform name).2) ∧
    (∀ p : List String, name ∈ p → create_job p name = (true, p)) := by
  have h1 : create_job platform name = (true, name :: platform) := by
    simp [create_job, h]
  have h2 : create_job (name :: platform) name = (true, name :: platform) := by
    simp [create_job]
  refine ⟨⟨by rw [h1], by rw [h1, h2], ?_, by rw [h1, h2]⟩, ?_⟩
  · rw [h1, h2]
    simp [List.count_cons_self, List.count_eq_zero.mpr h]
  · intro p hp
    simp [create_job, hp]

theorem c7_idempotent_creation_witness :
    (create_job [] "kaggle-titanic-abc").1 = true ∧
    (create_job (create_job [] "kaggle-titanic-abc").2 "kaggle-titanic-abc").1 =
      true ∧
    ((create_job (create_job [] "kaggle-titanic-abc").2
        "kaggle-titanic-abc").2).count "kaggle-titanic-abc" = 1 :=
  have h := c7_idempotent_creation [] "kaggle-titanic-abc" (by decide)
  ⟨h.1.1, h.1.2.1, h.1.2.2.1⟩

theorem mem_pending_insert {a x : Job} {l : List Job}
    (h : a ∈ pending_insert x l) : a = x ∨ a ∈ l := by
  induction l with
  | nil => simpa [pending_insert] using h
  | cons y ys ih =>
      unfold pending_insert at h
      by_cases hb : pending_before x y = true
      · simpa [hb] using h
      · simp only [hb] at h
        simp only [Bool.false_eq_true, if_false, List.mem_cons] at h
        rcases h with h | h
        · subst h
          exact Or.inr (List.mem_cons_self a ys)
        · rcases ih h with h1 | h1
          · exact Or.inl h1
          · exact Or.inr (List.mem_cons_of_mem y h1)

theorem mem_pending_sort {a : Job} {l : List Job}
    (h : a ∈ pending_sort l) : a ∈ l := by
  induction l with
  | nil => simp [pending_sort] at h
  | cons x xs ih =>
      unfold pending_sort at h
      rcases mem_pending_insert h with h1 | h1
      · simp [h1]
      · exact List.mem_cons_of_mem x (ih h1)

/-- Claim C9: get_pending_jobs on jobs submitted in order A, B, C, D with
priorities 2, 0, 1, 2 returns them as A, D, C, B (priority descending, ties
broken by ascending creation time), and every row it returns has status
PENDING whatever the table contents. -/
theorem c9_priority_ordering :
    get_pending_jobs
        [mkJob "A" JobStatus.pending 0 2, mkJob "B" JobStatus.pending 1 0,
          mkJob "C" JobStatus.pending 2 1, mkJob "D" JobStatus.pending 3 2]
        100 =
      [mkJob "A" JobStatus.pending 0 2, mkJob "D" JobStatus.pending 3 2,
        mkJob "C" JobStatus.pending 2 1, mkJob "B" JobStatus.pending 1 0] ∧
    ∀ (db : List Job) (limit : Nat),
      (get_pending_jobs db limit).all
        (fun j => decide (j.status = JobStatus.pending)) = true := by
  constructor
  · decide
  · intro db limit
    rw [List.all_eq_true]
    intro j hj
    have hmem : j ∈ pending_sort
        (db.filter (fun j => decide (j.status = JobStatus.pending))) := by
      have := hj
      unfold get_pending_jobs at this
      exact List.mem_of_mem_take this
    have hfil := mem_pending_sort hmem
    exact (List.mem_filter.mp hfil).2


theorem foldl_digitsVal (l : List Char) (a : Nat) :
    l.foldl (fun a c => 10 * a + (c.toNat - 48)) a =
      a * 10 ^ l.length + digitsVal l := by
  induction l generalizing a with
  | nil => simp [digitsVal]
  | cons c cs ih =>
      have h1 := ih (10 * a + (c.toNat - 48))
      have h2 := ih (c.toNat - 48)
      simp only [List.foldl_cons, digitsVal] at *
      rw [h1]
      have h0 : (10 * 0 + (c.toNat - 48)) = (c.toNat - 48) := by omega
      rw [h0, h2, List.length_cons]
      ring

theorem digitsVal_cons (c : Char) (cs : List Char) :
    digitsVal (c :: cs) = (c.toNat - 48) * 10 ^ cs.length + digitsVal cs := by
  unfold digitsVal
  simp only [List.foldl_cons]
  have := foldl_digitsVal cs (10 * 0 + (c.toNat - 48))
  simpa using this

theorem digitsVal_lt (l : List Char) (h : l.all isDigitChar = true) :
    digitsVal l < 10 ^ l.length := by
  induction l with
  | nil => simp [digitsVal]
  | cons c cs ih =>
      simp only [List.all_cons, Bool.and_eq_true] at h
      have hc : c.toNat - 48 ≤ 9 := by
        have hd := h.1
        unfold isDigitChar at hd
        simp only [Bool.and_eq_true, decide_eq_true_eq] at hd
        omega
      have hv := ih h.2
      rw [digitsVal_cons, List.length_cons, pow_succ]
      have h1 : (c.toNat - 48) * 10 ^ cs.length ≤ 9 * 10 ^ cs.length :=
        Nat.mul_le_mul_right _ hc
      omega

theorem reqval_nil (s : String) (hsplit : s.data.splitOn '.' = []) :
    requested_value? s = none := by
  unfold requested_value?
  rw [hsplit]

theorem reqval_single (s : String) (a : List Char)
    (hsplit : s.data.splitOn '.' = [a]) :
    requested_value? s = (py_int? a).map (fun n => (n : ℚ)) := by
  unfold requested_value?
  rw [hsplit]

theorem reqval_pair (s : String) (a b : List Char)
    (hsplit : s.data.splitOn '.' = [a, b]) :
    requested_value? s =
      if b.all isDigitChar = true ∧ (a ≠ [] ∨ b ≠ []) then
        (if a = [] then some 0 else py_int? a).map
          (fun w => ((w : ℚ) + (digitsVal b : ℚ) / 10 ^ b.length))
      else none := by
  unfold requested_value?
  rw [hsplit]
  rcases hw : (if a = [] then some 0 else py_int? a) with _ | w <;>
    by_cases hcond : b.all isDigitChar = true ∧ (a ≠ [] ∨ b ≠ []) <;>
      simp [hw, hcond]

theorem reqval_many (s : String) (a b c : List Char) (rest : List (List Char))
    (hsplit : s.data.splitOn '.' = a :: b :: c :: rest) :
    requested_value? s = none := by
  unfold requested_value?
  rw [hsplit]

theorem trunc_nil (s : String) (hsplit : s.data.splitOn '.' = []) :
    py_float_trunc? s = none := by
  unfold py_float_trunc?
  rw [hsplit]

theorem trunc_single (s : String) (a : List Char)
    (hsplit : s.data.splitOn '.' = [a]) :
    py_float_trunc? s = py_int? a := by
  unfold py_float_trunc?
  rw [hsplit]

theorem trunc_pair (s : String) (a b : List Char)
    (hsplit : s.data.splitOn '.' = [a, b]) :
    py_float_trunc? s =
      if b.all isDigitChar = true ∧ (a ≠ [] ∨ b ≠ []) then
        (if a = [] then some 0 else py_int? a)
      else none := by
  unfold py_float_trunc?
  rw [hsplit]

theorem trunc_many (s : String) (a b c : List Char) (rest : List (List Char))
    (hsplit : s.data.splitOn '.' = a :: b :: c :: rest) :
    py_float_trunc? s = none := by
  unfold py_float_trunc?
  rw [hsplit]

theorem requested_value_trunc (s : String) (r : ℚ)
    (h : requested_value? s = some r) :
    ∃ n : Nat, py_float_trunc? s = some n ∧ (n : ℚ) ≤ r ∧ r < n + 1 := by
  rcases hsplit : s.data.splitOn '.' with _ | ⟨a, _ | ⟨b, _ | ⟨c, rest⟩⟩⟩
  · rw [reqval_nil s hsplit] at h
    simp at h
  · rw [reqval_single s a hsplit] at h
    rw [trunc_single s a hsplit]
    rcases hp : py_int? a with _ | n
    · exact absurd h (by simp [hp])
    · have hnr : (n : ℚ) = r := by
        rw [hp] at h
        simpa using h
      exact ⟨n, rfl, le_of_eq hnr, by rw [← hnr]; exact lt_add_one _⟩
  · rw [reqval_pair s a b hsplit] at h
    rw [trunc_pair s a b hsplit]
    by_cases hcond : b.all isDigitChar = true ∧ (a ≠ [] ∨ b ≠ [])
    · rw [if_pos hcond] at h ⊢
      rcases hw : (if a = [] then some 0 else py_int? a) with _ | w
      · exact absurd h (by simp [hw])
      · have hwr : (w : ℚ) + (digitsVal b : ℚ) / 10 ^ b.length = r := by
          rw [hw] at h
          simpa using h
        have hfrac0 : 0 ≤ (digitsVal b : ℚ) / 10 ^ b.length := by positivity
        have hfrac1 : (digitsVal b : ℚ) / 10 ^ b.length < 1 := by
          rw [div_lt_one (by positivity)]
          exact_mod_cast digitsVal_lt b hcond.1
        refine ⟨w, rfl, ?_, ?_⟩
        · rw [← hwr]; linarith
        · rw [← hwr]; linarith
    · rw [if_neg hcond] at h
      simp at h
  · rw [reqval_many s a b c rest hsplit] at h
    simp at h

theorem reqval_one_point_five :
    requested_value? "1.5" = some ((3 : ℚ) / 2) := by
  have hs : "1.5".data.splitOn '.' = [['1'], ['5']] := by decide
  rw [reqval_pair "1.5" ['1'] ['5'] hs, if_pos (by decide),
    show (if (['1'] : List Char) = [] then some 0 else py_int? ['1']) =
      some 1 from by decide]
  have h5 : digitsVal ['5'] = 5 := by decide
  simp [h5]
  norm_num

theorem reqval_two : requested_value? "2" = some ((2 : ℚ)) := by
  have hs : "2".data.splitOn '.' = [['2']] := by decide
  rw [reqval_single "2" ['2'] hs,
    show py_int? ['2'] = some 2 from by decide]
  norm_num

/-- Claim C8 counterexample: for the request value "1.5" the computed cpu
limit is "2", whose numeric value 2 is not twice the requested value 3/2
(doubling would give 3): the code doubles the integer truncation of the
parsed request, not the request. For an unparseable memory request the
fallback limit "4Gi" is applied while the manifest builder emits no log
record at all. -/
theorem c8_counterexample :
    cpu_limit "1.5" = "2" ∧
    requested_value? "1.5" = some ((3 : ℚ) / 2) ∧
    requested_value? "2" = some ((2 : ℚ)) ∧
    ¬((2 : ℚ) = 2 * ((3 : ℚ) / 2)) ∧
    memory_limit "500Mb" = "4Gi" ∧
    (build_limits "1.5" "500Mb").2 = [] :=
  ⟨rfl, reqval_one_point_five, reqval_two, by norm_num, rfl, rfl⟩

/-- Claim C8 (amended): the cpu limit doubles the integer truncation of the
parsed request, so it equals doubling the request only for integer-valued
requests; the memory limit doubles the stripped integer with the Gi or Mi
suffix re-attached; and when a request fails to parse as a number the
hard-coded default limit ("2" for cpu, "4Gi" for memory) is applied while
the manifest builder emits no log record: the fallback is silent, not
logged. -/
theorem c8_limits_amended :
    (∀ (s : String) (r : ℚ), requested_value? s = some r →
      ∃ n : Nat, py_float_trunc? s = some n ∧ (n : ℚ) ≤ r ∧ r < n + 1 ∧
        cpu_limit s = toString (n * 2)) ∧
    (∀ s : String, py_float_trunc? s = none → cpu_limit s = "2") ∧
    (∀ (m : String) (v : Nat),
      py_int? (removePair 'M' 'i' (removePair 'G' 'i' m.data)) = some v →
      memory_limit m =
        toString (v * 2) ++ (if containsStr m "Gi" then "Gi" else "Mi")) ∧
    (∀ m : String,
      py_int? (removePair 'M' 'i' (removePair 'G' 'i' m.data)) = none →
      memory_limit m = "4Gi") ∧
    (∀ (c m : String), (build_limits c m).2 = []) := by
  refine ⟨?_, ?_, ?_, ?_, fun c m => rfl⟩
  · intro s r h
    obtain ⟨n, hn, h1, h2⟩ := requested_value_trunc s r h
    refine ⟨n, hn, h1, h2, ?_⟩
    unfold cpu_limit
    rw [hn]
  · intro s h
    unfold cpu_limit
    rw [h]
  · intro m v h
    simp only [memory_limit, h]
    split <;> rfl
  · intro m h
    simp only [memory_limit, h]

theorem c8_limits_amended_witness :
    (∃ n : Nat, py_float_trunc? "1.5" = some n ∧
      (n : ℚ) ≤ (3 : ℚ) / 2 ∧ (3 : ℚ) / 2 < n + 1 ∧
      cpu_limit "1.5" = toString (n * 2)) ∧
    cpu_limit "500m" = "2" ∧
    memory_limit "512Mi" = toString (512 * 2) ++
      (if containsStr "512Mi" "Gi" then "Gi" else "Mi") ∧
    memory_limit "500Mb" = "4Gi" :=
  ⟨c8_limits_amended.1 "1.5" ((3 : ℚ) / 2) reqval_one_point_five,
   c8_limits_amended.2.1 "500m" (by decide),
   c8_limits_amended.2.2.1 "512Mi" 512 (by decide),
   c8_limits_amended.2.2.2.1 "500Mb" (by decide)⟩
